import Mathlib

/-!
Verification of pysg (`pysg.py`): a shallow embedding of the log normalizer
and the statistics analyzers that the checked claims concern, together with
theorems settling those claims.

Modelling conventions:
* Python strings are Lean `String`s; where character-level work is needed we
  go through `String.data : List Char`.
* Python `dict`s are association lists with insert-overwrite semantics.
* pandas timestamps are modelled as integer seconds (`ℤ`); `datetime.datetime`
  values built by `mk_dataframe` are kept as their six calendar fields.
* Python `round` (banker's rounding, half to even) is modelled on `ℚ`.
* Code that can raise returns `Except String`.
* Nondeterministic pieces (`random.choice`, `np.random.randint` used only to
  pick a display quote) are omitted; no checked claim concerns them.
-/

/-- Python `round(q)`: round half to even, on rationals. -/
def pyRound (q : ℚ) : ℤ :=
  let f := ⌊q⌋
  let r := q - f
  if r < 1/2 then f
  else if 1/2 < r then f + 1
  else if f % 2 = 0 then f else f + 1

/-- Python `round(q, nd)`: round half to even at `nd` decimal digits. -/
def pyRoundTo (q : ℚ) (nd : ℕ) : ℚ :=
  (pyRound (q * (10 ^ nd)) : ℚ) / (10 ^ nd)

/-- Insert with overwrite into an association list (Python `d[k] = v`). -/
def alInsert {κ α : Type} [DecidableEq κ] (d : List (κ × α)) (k : κ) (v : α) :
    List (κ × α) :=
  if d.any (fun p => p.1 = k) then
    d.map (fun p => if p.1 = k then (k, v) else p)
  else
    d ++ [(k, v)]

/-- Lookup in an association list (Python `d.get(k)`). -/
def alGet {κ α : Type} [DecidableEq κ] (d : List (κ × α)) (k : κ) : Option α :=
  (d.find? (fun p => decide (p.1 = k))).map (fun p => p.2)

/-! ## Monologue detector (`calc_monologues`, pysg.py lines 410-447)

The source keeps, per user, the longest qualifying run and the count of
qualifying runs; a run is flushed only when the sender switches.  We embed the
fold over `zip(dfchat['content'], dfchat['user'])` exactly, including the
quirk that the qualifying test compares `monocounter` (which is one less than
`len(thismonologue)`, since the first message of a run is recorded by the
`else` branch without incrementing the counter).  The `random.choice` display
selection at the end is omitted (nondeterministic, not relevant to the
claims); the `randmonologues` accumulation it reads from is kept. -/

/-- `MONOLOGUE_THRESHOLD = 5` — the source comments: "Need more than this
amount of messages to count as monologue." -/
def MONOLOGUE_THRESHOLD : ℕ := 5

structure MonoInfo where
  longest_length : ℕ
  longest_message : List String
  count : ℕ
deriving Repr, DecidableEq

/-- State of the `calc_monologues` loop: `monologues` is the
`defaultdict(dict)` (an absent user stands for `longest.length = 0`,
`count = 0`), keyed by `Option String` because `lastuser` starts as `None`. -/
structure MonoState where
  monologues : List (Option String × MonoInfo)
  randmonologues : List (Option String × List (List String))
  lastuser : Option String
  monocounter : ℕ
  thismonologue : List String
deriving Repr, DecidableEq

/-- One iteration of the `for msgstr, userstr in zip(...)` loop. -/
def monoStep (st : MonoState) (row : String × String) : MonoState :=
  let msgstr := row.1
  let userstr := row.2
  if some userstr = st.lastuser then
    { st with
      monocounter := st.monocounter + 1
      thismonologue := st.thismonologue ++ [msgstr]
      lastuser := some userstr }
  else
    let st' :=
      if st.monocounter > MONOLOGUE_THRESHOLD then
        let base := (alGet st.monologues st.lastuser).getD ⟨0, [], 0⟩
        let base :=
          if st.monocounter > base.longest_length then
            { base with
              longest_length := st.thismonologue.length
              longest_message := st.thismonologue }
          else base
        let base := { base with count := base.count + 1 }
        { st with
          monologues := alInsert st.monologues st.lastuser base
          randmonologues := alInsert st.randmonologues st.lastuser
            (((alGet st.randmonologues st.lastuser).getD []) ++ [st.thismonologue]) }
      else st
    { st' with
      monocounter := 0
      thismonologue := [msgstr]
      lastuser := some userstr }

/-- `calc_monologues`: fold over the (content, user) columns.  Note the source
has no flush after the loop: a run still open at the end of the table is
discarded. -/
def calc_monologues (rows : List (String × String)) :
    List (Option String × MonoInfo) :=
  (rows.foldl monoStep ⟨[], [], none, 0, []⟩).monologues

/-- Claim C1: the source comment for `MONOLOGUE_THRESHOLD` and the spec say a
run of exactly 6 same-sender messages is counted as a monologue (and a run of
5 is not).  The code compares `monocounter`, which is the run length minus
one, against the threshold, so a maximal run of 6 messages (followed by a
sender switch) yields `monocounter = 5`, fails `5 > 5`, and is NOT counted;
only runs of 7 or more are counted.  This theorem evaluates the embedded code
at the failing input: six "alice" messages followed by one "bob" message
leave no entry for alice, while a 5-run is (correctly) not counted and a
7-run is counted once with recorded length 7. -/
theorem calc_monologues_six_run_not_counted :
    alGet (calc_monologues
        (List.replicate 6 ("hi", "alice") ++ [("yo", "bob")])) (some "alice")
      = none
    ∧ alGet (calc_monologues
        (List.replicate 5 ("hi", "alice") ++ [("yo", "bob")])) (some "alice")
      = none
    ∧ alGet (calc_monologues
        (List.replicate 7 ("hi", "alice") ++ [("yo", "bob")])) (some "alice")
      = some ⟨7, List.replicate 7 "hi", 1⟩ := by
  refine ⟨?_, ?_, ?_⟩ <;> rfl

/-- Claim C7: the spec requires a qualifying run at the very end of the table
to be finalized (flush-on-end).  The source loop finalizes a run only when the
sender switches and does nothing after the loop, so a table that ends in a
qualifying run records no monologue at all: seven trailing "alice" messages
produce an empty result, while the same run followed by one "bob" message is
counted. -/
theorem calc_monologues_no_flush_at_end :
    calc_monologues (List.replicate 7 ("hi", "alice")) = []
    ∧ alGet (calc_monologues
        (List.replicate 7 ("hi", "alice") ++ [("yo", "bob")])) (some "alice")
      = some ⟨7, List.replicate 7 "hi", 1⟩ := by
  exact ⟨rfl, rfl⟩

/-! ## Most-active-by-time-of-day (`calc_mostactive`, pysg.py lines 449-537)

The claim concerns the percentage loop over `active['allday']`: for each user
and each of the buckets 0, 6, 12, 18 it computes
`activityhr = round(100 * bucket_count / allday_count)`, tracks the running
maximum (strict `>`, started at `maxval = 0`, `maxidx = '00:00'`), and after
the four buckets adds `100 - totalactivity` to the bucket `maxidx`.  The rest
of `calc_mostactive` (random quote, message count, words per line per bucket)
does not influence these four numbers and is not embedded. -/

/-- A row of the event table `dfchat` as the analyzers see it: the timestamp
index modelled as integer seconds, plus the `user`, `mtype`, `content`
columns. -/
structure Row where
  date : ℤ
  user : String
  mtype : String
  content : String
deriving Repr, DecidableEq, Inhabited

/-- `dfchat.index.hour` for a timestamp in seconds. -/
def hourOf (t : ℤ) : ℤ := (t.emod 86400).ediv 3600

/-- Count of the user's messages in bucket `[hr, hr+6)`: the rows selected by
`(dfchat.index.hour >= hr) & (dfchat.index.hour < hr+6)` then grouped on this
user (`active["{:02d}:00".format(hr)].get(user, {'messages':0})['messages']`,
0 when the user has no activity there). -/
def bucketCount (rows : List Row) (user : String) (hr : ℤ) : ℕ :=
  (rows.filter (fun r =>
    decide (r.user = user ∧ hr ≤ hourOf r.date ∧ hourOf r.date < hr + 6))).length

/-- `active['allday'][user]['messages']`: all messages of the user. -/
def alldayCount (rows : List Row) (user : String) : ℕ :=
  (rows.filter (fun r => decide (r.user = user))).length

/-- `activityhr = round(100*bucket_count/allday_count)` (in Python a division
by zero would raise; the loop only visits users present in `allday`, whose
count is positive). -/
def activityhr (rows : List Row) (user : String) (hr : ℤ) : ℤ :=
  pyRound (100 * (bucketCount rows user hr : ℚ) / (alldayCount rows user : ℚ))

/-- The `maxval, maxidx` tracking of the percentage loop: starting from
`(maxval, maxidx) = (0, '00:00')`, each bucket's `(activityhr, key)` replaces
the pair when `activityhr > maxval` (strict, so the earliest bucket wins
ties).  Keys are kept as the bucket numbers 0, 6, 12, 18 standing for
'00:00'..'18:00'. -/
def maxTrack : List (ℤ × ℤ) → ℤ × ℤ → ℤ × ℤ
  | [], m => m
  | (a, i) :: t, m => maxTrack t (if a > m.1 then (a, i) else m)

/-- The tracked `maxidx` is the initial index or the key of one of the visited
buckets. -/
theorem maxTrack_snd (l : List (ℤ × ℤ)) (m : ℤ × ℤ) :
    (maxTrack l m).2 = m.2 ∨ (maxTrack l m).2 ∈ l.map Prod.snd := by
  induction l generalizing m with
  | nil => left; rfl
  | cons p t ih =>
    rcases ih (if p.1 > m.1 then p else m) with h | h
    · by_cases hc : p.1 > m.1
      · right
        rw [show maxTrack (p :: t) m = maxTrack t (if p.1 > m.1 then p else m)
          from rfl, h, if_pos hc]
        simp
      · left
        rw [show maxTrack (p :: t) m = maxTrack t (if p.1 > m.1 then p else m)
          from rfl, h, if_neg hc]
    · right
      rw [show maxTrack (p :: t) m = maxTrack t (if p.1 > m.1 then p else m)
        from rfl]
      simp [h]

/-- The `deltafix` correction applied to the four rounded shares
`a0, a6, a12, a18` of one user (loop of pysg.py lines 500-535): the bucket
whose key is the tracked `maxidx` absorbs `100 - totalactivity`. -/
def sharefix (a0 a6 a12 a18 : ℤ) : ℤ × ℤ × ℤ × ℤ :=
  ( if (maxTrack [(a0, 0), (a6, 6), (a12, 12), (a18, 18)] (0, 0)).2 = 0
      then a0 + (100 - (a0 + a6 + a12 + a18)) else a0,
    if (maxTrack [(a0, 0), (a6, 6), (a12, 12), (a18, 18)] (0, 0)).2 = 6
      then a6 + (100 - (a0 + a6 + a12 + a18)) else a6,
    if (maxTrack [(a0, 0), (a6, 6), (a12, 12), (a18, 18)] (0, 0)).2 = 12
      then a12 + (100 - (a0 + a6 + a12 + a18)) else a12,
    if (maxTrack [(a0, 0), (a6, 6), (a12, 12), (a18, 18)] (0, 0)).2 = 18
      then a18 + (100 - (a0 + a6 + a12 + a18)) else a18 )

/-- The four corrected percentages `active['allday'][user]['00:00' .. '18:00']`
after the `deltafix` step, as a tuple in bucket order. -/
def calc_mostactive_shares (rows : List Row) (user : String) : ℤ × ℤ × ℤ × ℤ :=
  sharefix (activityhr rows user 0) (activityhr rows user 6)
    (activityhr rows user 12) (activityhr rows user 18)

/-- Whatever the four rounded shares are, the `deltafix` correction targets
exactly one of the four buckets, so the corrected shares sum to 100. -/
theorem sharefix_sum (a0 a6 a12 a18 : ℤ) :
    (sharefix a0 a6 a12 a18).1 + (sharefix a0 a6 a12 a18).2.1
      + (sharefix a0 a6 a12 a18).2.2.1 + (sharefix a0 a6 a12 a18).2.2.2
      = 100 := by
  have hmem := maxTrack_snd [(a0, 0), (a6, 6), (a12, 12), (a18, 18)] (0, 0)
  simp only [List.map_cons, List.map_nil, List.mem_cons, List.not_mem_nil,
    or_false] at hmem
  unfold sharefix
  rcases hmem with h | h | h | h | h <;> rw [h] <;> norm_num <;> omega

/-- Claim C2: for every event table and every user appearing in it, the four
time-of-day percentage shares stored in the all-day aggregate sum to exactly
100 after the correction step — the bucket `maxidx` absorbs
`100 - totalactivity`, and `maxidx` is always one of the four bucket keys. -/
theorem calc_mostactive_shares_sum_100 (rows : List Row) (user : String)
    (_h : user ∈ rows.map Row.user) :
    (calc_mostactive_shares rows user).1
      + (calc_mostactive_shares rows user).2.1
      + (calc_mostactive_shares rows user).2.2.1
      + (calc_mostactive_shares rows user).2.2.2 = 100 := by
  unfold calc_mostactive_shares
  exact sharefix_sum _ _ _ _

/-- Witness for C2 at a concrete one-row table. -/
theorem calc_mostactive_shares_sum_100_witness :
    "alice" ∈ ([⟨0, "alice", "message", "hi"⟩] : List Row).map Row.user
    ∧ (calc_mostactive_shares [⟨0, "alice", "message", "hi"⟩] "alice").1
      + (calc_mostactive_shares [⟨0, "alice", "message", "hi"⟩] "alice").2.1
      + (calc_mostactive_shares [⟨0, "alice", "message", "hi"⟩] "alice").2.2.1
      + (calc_mostactive_shares [⟨0, "alice", "message", "hi"⟩] "alice").2.2.2
      = 100 :=
  ⟨by decide, calc_mostactive_shares_sum_100 _ _ (by decide)⟩

/-! ## Lonely-message detector (`calc_lonely`, pysg.py lines 834-896)

`timing[i]` is the gap (seconds) between message `i` and `i+1` of the
`mtype == 'message'` sub-table; `message_gap[i] = min(timing[i], timing[i+1])`
is the isolation of message `i+1`.  The source sorts indices ascending by
isolation (`argsort`), keeps the last 20 (`[-20:]`), reverses them, and for
each kept index `i` writes an entry for message `i+1` with
`'gapbefore': round(timing[i]/3600., 2)` and — the line under test —
`'gapafter': round(timing[i]/3600., 2)` as well, i.e. the gap *before* the
message in both fields.  The "first/last word" part of the function is not
involved in the claim and is not embedded.  `np.argsort` is modelled as a
stable insertion sort on indices (numpy's default quicksort leaves ties
unspecified; the claim-deciding input below has no ties). -/

/-- `timing = (index[1:] - index[:-1]).total_seconds()`. -/
def timing (ts : List ℤ) : List ℤ := List.zipWith (fun a b => a - b) ts.tail ts

/-- `message_gap = np.vstack([timing[:-1], timing[1:]]).min(axis=0)`. -/
def message_gap (tm : List ℤ) : List ℤ := List.zipWith min tm.dropLast tm.tail

/-- Insert index `i` into an index list sorted ascending by `vals`. -/
def insertIdx (vals : List ℤ) (i : ℕ) : List ℕ → List ℕ
  | [] => [i]
  | j :: t =>
      if vals.getD i 0 < vals.getD j 0 then i :: j :: t
      else j :: insertIdx vals i t

/-- `np.argsort vals`: the indices `0..len-1` sorted ascending by value. -/
def argsort (vals : List ℤ) : List ℕ :=
  (List.range vals.length).foldl (fun acc i => insertIdx vals i acc) []

/-- One entry of the `lonely` output: timestamp of the selected message, its
user and content, `gapbefore` and `gapafter` in hours (2-decimal rounding). -/
structure LonelyEntry where
  date : ℤ
  user : String
  message : String
  gapbefore : ℚ
  gapafter : ℚ
deriving Repr, DecidableEq

/-- `calc_lonely` (the `lonely` part): top-20 messages by isolation,
descending; entry `i` of the index list stands for message `i+1`. -/
def calc_lonely (rows : List Row) : List LonelyEntry :=
  let sub := rows.filter (fun r => decide (r.mtype = "message"))
  let ts := sub.map Row.date
  let tm := timing ts
  let mg := message_gap tm
  let idx := ((argsort mg).drop (mg.length - 20)).reverse
  idx.map (fun i =>
    { date := ts.getD (i + 1) 0
      user := (sub.getD (i + 1) default).user
      message := (sub.getD (i + 1) default).content
      gapbefore := pyRoundTo ((tm.getD i 0 : ℚ) / 3600) 2
      gapafter := pyRoundTo ((tm.getD i 0 : ℚ) / 3600) 2 })

/-- Claim C3, failing part, evaluated at a concrete table of four `message`
events at times 0h, 1h, 3h, 6h.  The selection is correct: neither the first
nor the last message is selected, ranking is by isolation descending
(message 2 with isolation 2h, then message 1 with isolation 1h), and each
`gapbefore` equals the true gap before the message.  But the reported
`gapafter` of the top entry is 2 (hours) — again the gap *before* message 2 —
while the true gap after it (between 3h and 6h) is 3 hours: the source writes
`round(timing[i]/3600., 2)` into both fields. -/
theorem calc_lonely_gapafter_wrong :
    calc_lonely
        [⟨0, "u1", "message", "a"⟩, ⟨3600, "u2", "message", "b"⟩,
         ⟨10800, "u3", "message", "c"⟩, ⟨21600, "u4", "message", "d"⟩]
      = [⟨10800, "u3", "c", 2, 2⟩, ⟨3600, "u2", "b", 1, 1⟩]
    ∧ (timing [0, 3600, 10800, 21600]).getD 2 0 = 10800
    ∧ pyRoundTo ((10800 : ℚ) / 3600) 2 = 3
    ∧ (3 : ℚ) ≠ 2 := by
  refine ⟨?_, by rfl, by norm_num [pyRoundTo, pyRound], by norm_num⟩
  norm_num [calc_lonely, timing, message_gap, argsort, insertIdx, List.filter,
    List.zipWith, List.range_succ, pyRoundTo, pyRound, LonelyEntry.mk.injEq]

/-! ## Python string primitives used by the normalizer -/

/-- Resolve one Python slice bound against a string of length `n`: negative
bounds count from the end, and bounds are clamped into `[0, n]`. -/
def pySliceIdx (n : ℕ) (i : ℤ) : ℕ :=
  if i < 0 then ((n : ℤ) + i).toNat else min i.toNat n

/-- Python `s[a:b]`. -/
def pySub (s : String) (a b : ℤ) : String :=
  ⟨(s.data.drop (pySliceIdx s.length a)).take
    (pySliceIdx s.length b - pySliceIdx s.length a)⟩

/-- First position (0 when both are empty) at which `sub` occurs in `l`. -/
def listFindSub (sub : List Char) : List Char → Option ℕ
  | [] => if sub.isEmpty then some 0 else none
  | c :: t =>
      if sub.isPrefixOf (c :: t) then some 0
      else (listFindSub sub t).map (fun j => j + 1)

/-- Python `s.find(sub, start)`: the lowest index `≥ start` where `sub`
occurs, else `-1`. -/
def pyFind (s : String) (sub : String) (start : ℕ) : ℤ :=
  match listFindSub sub.data (s.data.drop start) with
  | some j => ((start + j : ℕ) : ℤ)
  | none => -1

/-- Python `s.rstrip()` (Lean's `Char.isWhitespace` covers the whitespace the
log lines contain). -/
def pyRstrip (s : String) : String :=
  ⟨(s.data.reverse.dropWhile Char.isWhitespace).reverse⟩

/-- Python `s.strip(chars)`: drop the listed characters from both ends. -/
def stripEnds (s : String) (cs : List Char) : String :=
  ⟨((s.data.dropWhile (fun c => cs.contains c)).reverse.dropWhile
      (fun c => cs.contains c)).reverse⟩

/-- Python `s.replace(a, b)` for one-character `a` and `b`. -/
def replaceChar (s : String) (a b : Char) : String :=
  ⟨s.data.map (fun c => if c = a then b else c)⟩

/-- Python `s.replace(a, "")` for a one-character `a`. -/
def removeChar (s : String) (a : Char) : String :=
  ⟨s.data.filter (fun c => decide (c ≠ a))⟩

/-! ## Log normalizer (`normalize_whatsapp`, pysg.py lines 94-303)

`re_checknewline = "([0-9/]{10}\, [0-9]+:[0-9]+:[0-9]+)"` is embedded as a
direct scanner: at each position, ten characters from `[0-9/]`, then `", "`,
then three maximal nonempty digit runs separated by `:` (the trailing `+` is
greedy and the runs are followed by non-digits, so maximal runs are exactly
what the regex matches); `re.search` takes the leftmost matching position.
The embedding models the in-memory branch of `normalize_whatsapp` (the
`parsedlogfile` branch duplicates the same logic around a CSV write). -/

/-- A character of the `[0-9/]` class. -/
def isDateChar (c : Char) : Bool := c.isDigit || c = '/'

/-- Split off the maximal leading digit run. -/
def takeDigits : List Char → ℕ × List Char
  | [] => (0, [])
  | c :: t =>
      if c.isDigit then
        let p := takeDigits t
        (p.1 + 1, p.2)
      else (0, c :: t)

/-- Match `[0-9/]{10}, [0-9]+:[0-9]+:[0-9]+` at the head of `l`; `some n`
gives the match length. -/
def matchNewline (l : List Char) : Option ℕ :=
  if (l.take 10).length = 10 ∧ (l.take 10).all isDateChar then
    match l.drop 10 with
    | ',' :: ' ' :: r2 =>
        match takeDigits r2 with
        | (0, _) => none
        | (n1, ':' :: r3) =>
            (match takeDigits r3 with
             | (0, _) => none
             | (n2, ':' :: r4) =>
                 (match takeDigits r4 with
                  | (0, _) => none
                  | (n3, _) => some (10 + 2 + n1 + 1 + n2 + 1 + n3))
             | _ => none)
        | _ => none
    | _ => none
  else none

/-- Scan positions left to right for the first match. -/
def reSearchAux : List Char → ℕ → Option (ℕ × ℕ)
  | [], _ => none
  | c :: t, i =>
      match matchNewline (c :: t) with
      | some n => some (i, i + n)
      | none => reSearchAux t (i + 1)

/-- `re_checknewline.search(r)`: `some (start, end)` of the leftmost match. -/
def re_checknewline_search (s : String) : Option (ℕ × ℕ) :=
  reSearchAux s.data 0

/-- `normalize_whatsapp_line(r, dstart, dend, ustart)` (pysg.py lines
168-303): the ordered first-match-wins classification chain, returning
`[datestr, userstr, mtype, msgstr]`.  The final cleanup strips
U+202A/U+202C from the ends of the sender and replaces U+00A0 by a
space, as the source does. -/
def normalize_whatsapp_line (r : String) (dstart dend ustart : ℕ) : List String :=
  let de : ℤ := (dend : ℤ)
  let len : ℤ := (r.length : ℤ)
  let p : String × String × String :=
    if pyFind r " changed the subject to" 0 > de then
      ("subject", pySub r (ustart : ℤ) (pyFind r " changed the subject to" ustart),
        pySub r (pyFind r "changed the subject to" dend) len)
    else if pyFind r " created" 0 > de ∧ pyFind r ":" ustart = -1 then
      ("create", pySub r (ustart : ℤ) (pyFind r " created" ustart),
        pySub r (pyFind r "created" dend) len)
    else if pyFind r " changed the group icon" 0 > de then
      ("icon", pySub r (ustart : ℤ) (pyFind r " changed the group icon" ustart),
        pySub r (pyFind r "changed the group icon" dend) len)
    else if pyFind r " deleted the group icon" 0 > de then
      ("icon", pySub r (ustart : ℤ) (pyFind r " deleted the group icon" ustart),
        pySub r (pyFind r "deleted the group icon" dend) len)
    else if pyFind r " changed this group's icon" 0 > de then
      ("icon", pySub r (ustart : ℤ) (pyFind r " changed this group's icon" ustart),
        pySub r (pyFind r "changed this group's icon" dend) len)
    else if pyFind r " deleted this group's icon" 0 > de then
      ("icon", pySub r (ustart : ℤ) (pyFind r " deleted this group's icon" ustart),
        pySub r (pyFind r "deleted this group's icon" dend) len)
    else if pyFind r " added" 0 > de ∧ pyFind r ":" ustart = -1 then
      ("join", pySub r (ustart : ℤ) (pyFind r " added" ustart),
        pySub r (pyFind r "added" dend) len)
    else if pyFind r " joined" 0 > de ∧ pyFind r ":" ustart = -1 then
      ("join", pySub r (ustart : ℤ) (pyFind r " joined" ustart),
        pySub r (pyFind r "joined" dend) len)
    else if pyFind r " left" 0 > de ∧ pyFind r ":" ustart = -1 then
      ("leave", pySub r (ustart : ℤ) (pyFind r " left" ustart),
        pySub r (pyFind r "left" dend) len)
    else if pyFind r "'s security code changed" 0 > de then
      ("seccode", pySub r (ustart : ℤ) (pyFind r ":" ustart),
        pySub r (pyFind r "'s security code changed" dend) len)
    else if pyFind r "Messages to this group are now secured with end-to-end encryption." 0 > de then
      ("secured", pySub r (ustart : ℤ) (pyFind r ":" ustart),
        pySub r (pyFind r "Messages to this group are now secured with end-to-end encryption." dend) len)
    else if pyFind r "image omitted" 0 > de then
      ("image", pySub r (ustart : ℤ) (pyFind r ":" ustart),
        pySub r (pyFind r ":" ustart + 2) len)
    else if pyFind r "GIF omitted" 0 > de then
      ("gif", pySub r (ustart : ℤ) (pyFind r ":" ustart),
        pySub r (pyFind r ":" ustart + 2) len)
    else if pyFind r "video omitted" 0 > de then
      ("video", pySub r (ustart : ℤ) (pyFind r ":" ustart),
        pySub r (pyFind r ":" ustart + 2) len)
    else if pyFind r "audio omitted" 0 > de then
      ("audio", pySub r (ustart : ℤ) (pyFind r ":" ustart),
        pySub r (pyFind r ":" ustart + 2) len)
    else if pyFind r "sticker omitted" 0 > de then
      ("sticker", pySub r (ustart : ℤ) (pyFind r ":" ustart),
        pySub r (pyFind r ":" ustart + 2) len)
    else if pyFind r "document omitted" 0 > de then
      ("document", pySub r (ustart : ℤ) (pyFind r ":" ustart),
        pySub r (pyFind r ":" ustart + 2) len)
    else
      ("message", pySub r (ustart : ℤ) (pyFind r ":" ustart),
        pySub r (pyFind r ":" ustart + 2) len)
  let datestr := pySub r (dstart : ℤ) de
  let userstr := replaceChar (stripEnds p.2.1 ['\u202a', '\u202c']) '\u00a0' ' '
  [datestr, userstr, p.1, p.2.2]

/-- The per-line loop of `normalize_whatsapp`.  `pm` is `parsedmsg`: `none`
stands for the initial `""`.  A new-event line flushes the previous message
(`if (parsedmsg)` — the initial empty string is falsy, a started 4-element
list is always truthy) and starts a new one; a continuation line executes
`parsedmsg[-1] = parsedmsg[-1].rstrip() + r`, which on the initial
`parsedmsg = ""` raises `IndexError` (`""[-1]` is out of range).  After the
loop the source returns `chatnormalized` without flushing the pending
message. -/
def normLoop : List String → List (List String) → Option (List String) →
    Except String (List (List String))
  | [], acc, _ => Except.ok acc
  | r :: rest, acc, pm =>
      let r := removeChar r '\u200e'
      match re_checknewline_search r with
      | some (ds, de) =>
          let acc' := match pm with
            | some msg => acc ++ [msg]
            | none => acc
          normLoop rest acc' (some (normalize_whatsapp_line r ds de (de + 2)))
      | none =>
          match pm with
          | some msg =>
              normLoop rest acc
                (some (msg.dropLast ++ [pyRstrip (msg.getLastD "") ++ r]))
          | none => Except.error "IndexError: string index out of range"

/-- `normalize_whatsapp` on an in-memory list of physical lines. -/
def normalize_whatsapp (lines : List String) :
    Except String (List (List String)) :=
  normLoop lines [] none

/-- Claim C4, evaluated at its input: lines `L1(ts, user, "a")`, `"b"`,
`L2(ts2, user2, "c")`.  The continuation merge itself behaves as claimed —
the first event's body becomes `"ab"` — but the normalizer returns exactly
ONE event, not two: the `"c"` event is still pending in `parsedmsg` when the
input ends, and the source returns without a terminal flush, dropping the
last logical message. -/
theorem normalize_whatsapp_drops_last_event :
    normalize_whatsapp
        ["27/11/2019, 21:40:56: user: a", "b", "27/11/2019, 21:41:10: user2: c"]
      = Except.ok [["27/11/2019, 21:40:56", "user", "message", "ab"]]
    ∧ (Except.ok [["27/11/2019, 21:40:56", "user", "message", "ab"]] :
        Except String (List (List String))).map List.length ≠ Except.ok 2 := by
  refine ⟨rfl, fun h => ?_⟩
  simp [Except.map] at h

/-- Claim C6, evaluated at a failing input: a stream whose first line `"b"`
carries no leading timestamp.  `parsedmsg` is still the initial `""`, and the
continuation branch evaluates `parsedmsg[-1]`, raising `IndexError` — the
normalizer does not complete and does not drop the line.  (A stream with no
lines at all is fine and yields the empty sequence.) -/
theorem normalize_whatsapp_midcontinuation_raises :
    normalize_whatsapp ["b"]
      = Except.error "IndexError: string index out of range"
    ∧ normalize_whatsapp ["b", "27/11/2019, 21:40:56: user: a"]
      = Except.error "IndexError: string index out of range"
    ∧ normalize_whatsapp [] = Except.ok [] := by
  exact ⟨rfl, rfl, rfl⟩

/-! ## Window selector (`calc_stats_per_tf`, pysg.py lines 958-987)

Timestamps are integer seconds.  `pd.Timedelta(tf, unit='d')` is `tf * 86400`
seconds; `.days` of a non-negative `Timedelta` is floor division by 86400
(Lean's `/` on `ℤ` is `Int.ediv`, floor division for a positive divisor, so
it agrees with pandas also for an impossible negative span).  The per-window
statistics value is modelled by the filtered sub-table itself: the claim
counts bundle entries, and `calc_stats` attaches one payload per surviving
key.  `allstats[tf_real] = ...` is a dict write, i.e. insert-overwrite. -/

/-- `dfchat.index.max()` (junk 0 for an empty table, where pandas gives NaN;
unreachable in the claims, which assume a nonempty table). -/
def maxL : List ℤ → ℤ
  | [] => 0
  | h :: t => t.foldl max h

/-- `dfchat.index.min()` (same convention). -/
def minL : List ℤ → ℤ
  | [] => 0
  | h :: t => t.foldl min h

theorem foldl_max_le_init (t : List ℤ) (a : ℤ) : a ≤ t.foldl max a := by
  induction t generalizing a with
  | nil => simp
  | cons h tl ih => exact le_trans (le_max_left a h) (ih (max a h))

theorem foldl_min_init_le (t : List ℤ) (a : ℤ) : t.foldl min a ≤ a := by
  induction t generalizing a with
  | nil => simp
  | cons h tl ih => exact le_trans (ih (min a h)) (min_le_left a h)

theorem foldl_min_le_mem (t : List ℤ) (a x : ℤ) (hx : x ∈ t) :
    t.foldl min a ≤ x := by
  induction t generalizing a with
  | nil => cases hx
  | cons h tl ih =>
    rcases List.mem_cons.mp hx with rfl | hx
    · exact le_trans (foldl_min_init_le tl (min a x)) (min_le_right a x)
    · exact ih (min a h) hx

/-- Every element of a nonempty list is at least its `minL`. -/
theorem minL_le_mem (l : List ℤ) (x : ℤ) (hx : x ∈ l) : minL l ≤ x := by
  cases l with
  | nil => cases hx
  | cons h t =>
    rcases List.mem_cons.mp hx with rfl | hx
    · exact foldl_min_init_le t x
    · exact foldl_min_le_mem t h x hx

/-- `if (-1 in timeframes): timeframes[timeframes.index(-1)] = 100*365` —
replace the first occurrence of the sentinel `-1` (no-op when absent). -/
def replFirstM1 : List ℤ → List ℤ
  | [] => []
  | h :: t => if h = -1 then (100 * 365) :: t else h :: replFirstM1 t

/-- Stable insertion into an ascending list. -/
def insSorted (x : ℤ) : List ℤ → List ℤ
  | [] => [x]
  | h :: t => if x < h then x :: h :: t else h :: insSorted x t

/-- Python `sorted` (ascending, stable). -/
def pySorted (l : List ℤ) : List ℤ :=
  l.foldl (fun acc x => insSorted x acc) []

/-- One iteration of the `for tf in sorted(timeframes)` loop: the state is
(`allstats`, `last_tf_real`); a window whose effective range duration equals
the previous one is skipped (`continue`). -/
def tfStep (ts : List ℤ) (st : List (ℤ × List ℤ) × Option ℤ) (tf : ℤ) :
    List (ℤ × List ℤ) × Option ℤ :=
  let date_min := maxL ts - tf * 86400
  let sub := ts.filter (fun t => decide (t > date_min))
  let tf_real := (maxL sub - minL sub) / 86400
  if some tf_real = st.2 then st
  else (alInsert st.1 tf_real sub, some tf_real)

/-- `calc_stats_per_tf`: the bundle keyed by effective range duration. -/
def calc_stats_per_tf (ts : List ℤ) (timeframes : List ℤ) :
    List (ℤ × List ℤ) :=
  ((pySorted (replFirstM1 timeframes)).foldl (tfStep ts) ([], none)).1

/-- A window larger than the table's span keeps the whole table. -/
theorem tf_filter_all (ts : List ℤ) (tf : ℤ)
    (htf : maxL ts - minL ts < tf * 86400) :
    ts.filter (fun t => decide (t > maxL ts - tf * 86400)) = ts := by
  apply List.filter_eq_self.mpr
  intro a ha
  simp only [decide_eq_true_eq]
  have := minL_le_mem ts a ha
  omega

/-- Claim C5: requesting windows `[31, 365, -1]` (`-1` the unbounded
sentinel, turned into `100*365` days) against a table whose actual span is 10
days produces exactly one bundle entry: all three windows keep the whole
table, every effective range duration is the same 10 days, and the second and
third are skipped as duplicates of the previous one. -/
theorem calc_stats_per_tf_dedup (ts : List ℤ) (_h1 : ts ≠ [])
    (h2 : (maxL ts - minL ts) / 86400 = 10) :
    (calc_stats_per_tf ts [31, 365, -1]).length = 1 := by
  have hspan : maxL ts - minL ts < 11 * 86400 := by omega
  have e1 : tfStep ts ([], none) 31 = ([(10, ts)], some 10) := by
    unfold tfStep
    dsimp only
    rw [tf_filter_all ts 31 (by omega), h2]
    simp [alInsert]
  have e2 : tfStep ts ([(10, ts)], some 10) 365 = ([(10, ts)], some 10) := by
    unfold tfStep
    dsimp only
    rw [tf_filter_all ts 365 (by omega), h2]
    simp
  have e3 : tfStep ts ([(10, ts)], some 10) 36500 = ([(10, ts)], some 10) := by
    unfold tfStep
    dsimp only
    rw [tf_filter_all ts 36500 (by omega), h2]
    simp
  unfold calc_stats_per_tf
  rw [show pySorted (replFirstM1 [31, 365, -1]) = [31, 365, 36500] from rfl]
  rw [List.foldl_cons, List.foldl_cons, List.foldl_cons, List.foldl_nil,
    e1, e2, e3]
  rfl

/-- Witness for C5: two timestamps exactly 10 days apart. -/
theorem calc_stats_per_tf_dedup_witness :
    (([0, 864000] : List ℤ) ≠ []
      ∧ (maxL [0, 864000] - minL [0, 864000]) / 86400 = 10)
    ∧ (calc_stats_per_tf [0, 864000] [31, 365, -1]).length = 1 :=
  ⟨⟨by decide, by decide⟩, calc_stats_per_tf_dedup _ (by decide) (by decide)⟩

/-! ## Event table builder (`mk_dataframe`, pysg.py lines 305-337)

Each normalized event `[datestr, userstr, mtype, msgstr]` becomes one table
row, in input order.  Dates are parsed by the literal character offsets of
the source (`[6:10]` year, `[3:5]` month, `[0:2]` day, `[12:-6]` hour —
1 or 2 digits, `[-5:-3]` minute, `[-2:]` second); `int()` on a non-digit
slice raises `ValueError`, the only way the builder can fail.  The `words`
column is `len(content.split())`.  The source contains no monotonicity check
of any kind: it parses, sets the index, and computes `words`. -/

/-- Python `int(s)` for the sliced digit substrings (the source's slices are
pure digit runs; the sign/whitespace forms `int` also accepts cannot occur). -/
def parseIntStr (s : String) : Except String ℤ :=
  if s.data ≠ [] ∧ s.data.all Char.isDigit then
    Except.ok ((s.data.foldl (fun n c => 10 * n + (c.toNat - 48)) 0 : ℕ) : ℤ)
  else Except.error ("ValueError: invalid literal for int: " ++ s)

/-- Accumulate `str.split()`: whitespace-run-delimited words. -/
def splitWsAux : List Char → List Char → List (List Char)
  | [], cur => if cur.isEmpty then [] else [cur.reverse]
  | c :: t, cur =>
      if c.isWhitespace then
        if cur.isEmpty then splitWsAux t [] else cur.reverse :: splitWsAux t []
      else splitWsAux t (c :: cur)

/-- `len(row["content"].split())`. -/
def wordCount (s : String) : ℕ := (splitWsAux s.data []).length

/-- One row of the built DataFrame: the parsed `datetime` fields, the three
string columns and the derived `words` column. -/
structure DfRow where
  year : ℤ
  month : ℤ
  day : ℤ
  hour : ℤ
  minute : ℤ
  second : ℤ
  user : String
  mtype : String
  content : String
  words : ℕ
deriving Repr, DecidableEq

/-- The six `int(...)` calls of the `datetime.datetime(...)` construction, in
source order. -/
def parseDate6 (datestr : String) : Except String (ℤ × ℤ × ℤ × ℤ × ℤ × ℤ) := do
  let y ← parseIntStr (pySub datestr 6 10)
  let mo ← parseIntStr (pySub datestr 3 5)
  let d ← parseIntStr (pySub datestr 0 2)
  let h ← parseIntStr (pySub datestr 12 (-6))
  let mi ← parseIntStr (pySub datestr (-5) (-3))
  let s ← parseIntStr (pySub datestr (-2) (datestr.length : ℤ))
  pure (y, mo, d, h, mi, s)

/-- Build one table row from one normalized event. -/
def parseRow (ev : List String) : Except String DfRow :=
  match parseDate6 (ev.getD 0 "") with
  | Except.error e => Except.error e
  | Except.ok d =>
      Except.ok
        ⟨d.1, d.2.1, d.2.2.1, d.2.2.2.1, d.2.2.2.2.1, d.2.2.2.2.2,
          ev.getD 1 "", ev.getD 2 "", ev.getD 3 "", wordCount (ev.getD 3 "")⟩

/-- `mk_dataframe`: rows in input order; the only failure is a date that does
not parse.  There is no sorting and no monotonicity assertion. -/
def mk_dataframe : List (List String) → Except String (List DfRow)
  | [] => Except.ok []
  | ev :: rest =>
      match parseRow ev with
      | Except.error e => Except.error e
      | Except.ok r =>
          match mk_dataframe rest with
          | Except.error e => Except.error e
          | Except.ok rs => Except.ok (r :: rs)

/-- A row's timestamp as one key, ordered like `datetime` (lexicographic in
year, month, day, hour, minute, second for in-range fields). -/
def dateKey (r : DfRow) : ℤ :=
  ((((r.year * 100 + r.month) * 100 + r.day) * 100 + r.hour) * 100 + r.minute)
    * 100 + r.second

/-- Modelled from the spec: the "monotonic non-decreasing timestamps"
assertion that §4.4/§7 of the spec say the Event Table Builder performs.  No
such check exists in `mk_dataframe` in the source; this definition exists
only to state that a given input violates monotonicity. -/
def dates_monotone (rows : List DfRow) : Bool :=
  ((rows.map dateKey).zip (rows.map dateKey).tail).all
    (fun p => decide (p.1 ≤ p.2))

/-- Claim C8, counterexample to the reporting half: two well-formed events in
non-chronological order.  `mk_dataframe` succeeds (its only failure channel
is an unparsable date), returns the rows in input order, and nothing in the
result reports the violation, although the timestamps are not monotone. -/
theorem mk_dataframe_counterexample :
    mk_dataframe
        [["27/11/2019, 21:41:10", "u2", "message", "b"],
         ["27/11/2019, 21:40:56", "u1", "message", "a"]]
      = Except.ok
        [⟨2019, 11, 27, 21, 41, 10, "u2", "message", "b", 1⟩,
         ⟨2019, 11, 27, 21, 40, 56, "u1", "message", "a", 1⟩]
    ∧ dates_monotone
        [⟨2019, 11, 27, 21, 41, 10, "u2", "message", "b", 1⟩,
         ⟨2019, 11, 27, 21, 40, 56, "u1", "message", "a", 1⟩] = false := by
  exact ⟨rfl, by decide⟩

/-- Claim C8 as amended: `mk_dataframe` performs no monotonicity check and
reports no anomaly — it can only fail on an unparsable date — and it never
reorders rows: whenever it succeeds, the output rows carry the input events'
(user, mtype, content) triples in exactly the input order. -/
theorem mk_dataframe_preserves_order (events : List (List String))
    (rows : List DfRow) (h : mk_dataframe events = Except.ok rows) :
    rows.map (fun r => (r.user, r.mtype, r.content))
      = events.map (fun ev => (ev.getD 1 "", ev.getD 2 "", ev.getD 3 "")) := by
  induction events generalizing rows with
  | nil =>
    unfold mk_dataframe at h
    cases h
    rfl
  | cons ev rest ih =>
    unfold mk_dataframe at h
    cases hp : parseRow ev with
    | error e => rw [hp] at h; cases h
    | ok r =>
      rw [hp] at h
      cases hm : mk_dataframe rest with
      | error e => rw [hm] at h; cases h
      | ok rs =>
        rw [hm] at h
        cases h
        have hr : r.user = ev.getD 1 "" ∧ r.mtype = ev.getD 2 ""
            ∧ r.content = ev.getD 3 "" := by
          unfold parseRow at hp
          cases hd : parseDate6 (ev.getD 0 "") with
          | error e => rw [hd] at hp; cases hp
          | ok d => rw [hd] at hp; cases hp; exact ⟨rfl, rfl, rfl⟩
        simp only [List.map_cons, hr.1, hr.2.1, hr.2.2, ih rs hm]

/-- Witness for the amended C8 at a concrete one-event input. -/
theorem mk_dataframe_preserves_order_witness :
    mk_dataframe [["27/11/2019, 21:40:56", "u1", "message", "a"]]
      = Except.ok [⟨2019, 11, 27, 21, 40, 56, "u1", "message", "a", 1⟩]
    ∧ ([⟨2019, 11, 27, 21, 40, 56, "u1", "message", "a", 1⟩] :
          List DfRow).map (fun r => (r.user, r.mtype, r.content))
      = [["27/11/2019, 21:40:56", "u1", "message", "a"]].map
          (fun ev => (ev.getD 1 "", ev.getD 2 "", ev.getD 3 "")) :=
  ⟨by rfl, mk_dataframe_preserves_order _ _ (by rfl)⟩

/-! ## Alias resolver (`dedup_usernames`, pysg.py lines 339-361)

The alias map `{name: [alias, ...], ...}` is inverted into
`userdict[alias] = name` (later entries overwrite earlier ones, as in a
Python dict); each event's sender `row[1]` is replaced by
`userdict.get(row[1], row[1])`.  `None` for the alias map is a no-op. -/

/-- Build `userdict` from the alias map, in iteration order. -/
def mkUserdict (useraliases : List (String × List String)) :
    List (String × String) :=
  useraliases.foldl (fun d p => p.2.foldl (fun d a => alInsert d a p.1) d) []

/-- `dedup_usernames` (returning the rewritten rows; the source mutates the
list in place). -/
def dedup_usernames (chatparsed : List (List String))
    (useraliases : Option (List (String × List String))) : List (List String) :=
  match useraliases with
  | none => chatparsed
  | some ua =>
      let userdict := mkUserdict ua
      chatparsed.map (fun row =>
        row.set 1 ((alGet userdict (row.getD 1 "")).getD (row.getD 1 "")))

/-- A value produced by `alGet` is one of the association list's values. -/
theorem alGet_mem_values {d : List (String × String)} {k v : String}
    (h : alGet d k = some v) : v ∈ d.map Prod.snd := by
  unfold alGet at h
  cases hf : d.find? (fun p => decide (p.1 = k)) with
  | none => rw [hf] at h; cases h
  | some p =>
    rw [hf] at h
    simp only [Option.map_some', Option.some.injEq] at h
    exact List.mem_map.mpr ⟨p, List.mem_of_find?_eq_some hf, h⟩

/-- Claim C9, counterexample: the chained alias map `{B: [A], C: [B]}`.  One
resolution sends sender `A` to `B`; a second application sends it on to `C`,
so resolving twice does not equal resolving once. -/
theorem dedup_usernames_not_idempotent :
    dedup_usernames [["d", "A", "message", "m"]]
        (some [("B", ["A"]), ("C", ["B"])])
      = [["d", "B", "message", "m"]]
    ∧ dedup_usernames
        (dedup_usernames [["d", "A", "message", "m"]]
          (some [("B", ["A"]), ("C", ["B"])]))
        (some [("B", ["A"]), ("C", ["B"])])
      = [["d", "C", "message", "m"]]
    ∧ (["d", "C", "message", "m"] : List String)
        ≠ ["d", "B", "message", "m"] := by
  exact ⟨by decide, by decide, by decide⟩

/-- Claim C9 as amended: alias resolution is idempotent for every alias map
whose canonical names are fixed points of the inverted lookup — i.e. no
canonical name is itself registered as an alias of a different name.  (The
counterexample shows the restriction is needed: chained maps re-resolve.) -/
theorem dedup_usernames_idempotent (rows : List (List String))
    (ua : List (String × List String))
    (hfix : ∀ v ∈ (mkUserdict ua).map Prod.snd,
        (alGet (mkUserdict ua) v).getD v = v) :
    dedup_usernames (dedup_usernames rows (some ua)) (some ua)
      = dedup_usernames rows (some ua) := by
  unfold dedup_usernames
  dsimp only
  rw [List.map_map]
  apply List.map_congr_left
  intro row _
  simp only [Function.comp_apply]
  match row with
  | [] => rfl
  | [a] => rfl
  | a :: b :: t =>
    simp only [List.set, List.getD, List.get?_cons_succ, List.get?_cons_zero,
      Option.getD_some]
    cases halget : alGet (mkUserdict ua) b with
    | none => simp [halget]
    | some v => simp [hfix v (alGet_mem_values halget)]

/-- Witness for the amended C9: a one-level alias map (B is nobody's alias). -/
theorem dedup_usernames_idempotent_witness :
    (∀ v ∈ (mkUserdict [("B", ["A"])]).map Prod.snd,
        (alGet (mkUserdict [("B", ["A"])]) v).getD v = v)
    ∧ dedup_usernames
        (dedup_usernames [["d", "A", "message", "m"]] (some [("B", ["A"])]))
        (some [("B", ["A"])])
      = dedup_usernames [["d", "A", "message", "m"]] (some [("B", ["A"])]) :=
  ⟨by decide, dedup_usernames_idempotent _ _ (by decide)⟩

/-! ## Word analysis: shouting/asking intensity (`calc_word_analysis`,
pysg.py lines 687-708)

Per user, over the concatenation `' '.join(...)` of the user's
`message`-type bodies: `shout` is the number of characters removed by
`.replace("!","")`, `ask` the number then removed by `.replace("?","")`, and
both are divided by `round(float(len(text_after_both_removals))/100.0, 3)` —
the post-removal character count scaled to percent (a length divided by 100
has two decimal digits, so the 3-decimal rounding is exact).  The division is
unguarded: a zero post-removal length raises `ZeroDivisionError`.  The caps
percentage and the top-15 long words of the same function are not involved in
the claim and are not embedded. -/

/-- `' '.join(msgs)` as characters. -/
def joinedText (msgs : List String) : List Char :=
  (String.intercalate " " msgs).data

/-- The number of `!` characters the first `replace` removes. -/
def shoutRemoved (msgs : List String) : ℕ :=
  ((joinedText msgs).filter (fun c => decide (c = '!'))).length

/-- The number of `?` characters the second `replace` removes. -/
def askRemoved (msgs : List String) : ℕ :=
  ((joinedText msgs).filter (fun c => decide (c = '?'))).length

/-- The post-removal character count: characters that are neither `!` nor
`?`. -/
def remainingLen (msgs : List String) : ℕ :=
  ((joinedText msgs).filter (fun c => decide (c ≠ '!' ∧ c ≠ '?'))).length

/-- The shout/ask computation of `calc_word_analysis` for one user's message
bodies, in source order: count the `!` removals, then the `?` removals, then
normalize both by `round(len(dfwords_u)/100.0, 3)` (the second division runs
first in the source; both raise on a zero denominator, so one error value
stands for either). -/
def calc_shout_ask (msgs : List String) : Except String (ℚ × ℚ) :=
  let dfwords_u := String.intercalate " " msgs
  let shout := dfwords_u.length - (removeChar dfwords_u '!').length
  let dfwords_u1 := removeChar dfwords_u '!'
  let ask := dfwords_u1.length - (removeChar dfwords_u1 '?').length
  let dfwords_u2 := removeChar dfwords_u1 '?'
  let denom := pyRoundTo ((dfwords_u2.length : ℚ) / 100) 3
  if denom = 0 then Except.error "ZeroDivisionError: float division by zero"
  else Except.ok ((shout : ℚ) / denom, (ask : ℚ) / denom)

/-- `round` of an integer is itself. -/
theorem pyRound_int (z : ℤ) : pyRound ((z : ℤ) : ℚ) = z := by
  unfold pyRound
  norm_num

/-- `round(n/100, 3)` is exact for a natural `n`. -/
theorem pyRoundTo_div100 (n : ℕ) : pyRoundTo ((n : ℚ) / 100) 3 = (n : ℚ) / 100 := by
  unfold pyRoundTo
  have h1 : ((n : ℚ) / 100) * 10 ^ 3 = (((10 * n : ℕ) : ℤ) : ℚ) := by
    push_cast
    ring
  rw [h1, pyRound_int]
  push_cast
  ring

/-- The characters equal to `a` and those different from `a` split a list's
length. -/
theorem length_filter_add (l : List Char) (a : Char) :
    (l.filter (fun c => decide (c = a))).length
      + (l.filter (fun c => decide (c ≠ a))).length = l.length := by
  have hneg : (fun c : Char => decide (c ≠ a))
      = (fun c => decide ¬(decide (c = a) = true)) := by
    funext c
    simp
  rw [hneg, ← List.countP_eq_length_filter, ← List.countP_eq_length_filter,
    ← List.length_eq_countP_add_countP (fun c => decide (c = a)) l]

/-- Removing `!` does not change the number of `?` characters. -/
theorem count_q_after_bang (l : List Char) :
    ((l.filter (fun c => decide (c ≠ '!'))).filter
        (fun c => decide (c = '?'))).length
      = (l.filter (fun c => decide (c = '?'))).length := by
  rw [List.filter_filter]
  have : ∀ c ∈ l, (decide (c = '?') && decide (c ≠ '!'))
      = decide (c = '?') := by
    intro c _
    by_cases h : c = '?'
    · subst h
      rfl
    · simp [h]
  rw [List.filter_congr this]

/-- The two successive removals equal one filter on both characters. -/
theorem filter_both (l : List Char) :
    (l.filter (fun c => decide (c ≠ '!'))).filter (fun c => decide (c ≠ '?'))
      = l.filter (fun c => decide (c ≠ '!' ∧ c ≠ '?')) := by
  rw [List.filter_filter]
  have : ∀ c ∈ l, (decide (c ≠ '?') && decide (c ≠ '!'))
      = decide (c ≠ '!' ∧ c ≠ '?') := by
    intro c _
    by_cases h1 : c = '!' <;> by_cases h2 : c = '?' <;> simp [h1, h2]
  rw [List.filter_congr this]

/-- Claim C10: the shouting and asking intensities are the removed-character
counts divided by the post-removal character count scaled to percent
(`100 * removed / remaining`), and the division is unguarded: on a user whose
concatenated text consists entirely of `!` and `?` (post-removal count zero)
the computation raises `ZeroDivisionError`. -/
theorem calc_word_analysis_shout_ask (msgs : List String)
    (h : remainingLen msgs ≠ 0) :
    calc_shout_ask msgs
        = Except.ok
            (100 * (shoutRemoved msgs : ℚ) / (remainingLen msgs : ℚ),
             100 * (askRemoved msgs : ℚ) / (remainingLen msgs : ℚ))
    ∧ calc_shout_ask ["!?"]
        = Except.error "ZeroDivisionError: float division by zero" := by
  constructor
  · unfold calc_shout_ask
    dsimp only
    have hlen : ∀ s : String, s.length = s.data.length := fun s => rfl
    have hrm : ∀ (s : String) (a : Char),
        (removeChar s a).data = s.data.filter (fun c => decide (c ≠ a)) :=
      fun s a => rfl
    have hshout : (String.intercalate " " msgs).length
        - (removeChar (String.intercalate " " msgs) '!').length
        = shoutRemoved msgs := by
      rw [hlen, hlen, hrm]
      have := length_filter_add (joinedText msgs) '!'
      unfold shoutRemoved
      unfold joinedText at this ⊢
      omega
    have hask : (removeChar (String.intercalate " " msgs) '!').length
        - (removeChar (removeChar (String.intercalate " " msgs) '!') '?').length
        = askRemoved msgs := by
      rw [hlen, hlen, hrm, hrm, hrm]
      have h1 := length_filter_add
        ((joinedText msgs).filter (fun c => decide (c ≠ '!'))) '?'
      have h2 := count_q_after_bang (joinedText msgs)
      unfold askRemoved
      unfold joinedText at h1 h2 ⊢
      omega
    have hrem : (removeChar (removeChar (String.intercalate " " msgs) '!') '?').length
        = remainingLen msgs := by
      rw [hlen, hrm, hrm, filter_both]
      rfl
    rw [hshout, hask, hrem, pyRoundTo_div100]
    have hne : ((remainingLen msgs : ℚ) / 100) ≠ 0 := by
      have : (remainingLen msgs : ℚ) ≠ 0 := Nat.cast_ne_zero.mpr h
      positivity
    rw [if_neg hne]
    congr 1
    rw [Prod.mk.injEq]
    constructor <;> field_simp <;> ring
  · unfold calc_shout_ask
    dsimp only
    have hz : (removeChar (removeChar (String.intercalate " " ["!?"]) '!') '?').length
        = 0 := by rfl
    rw [hz]
    have h0 : pyRoundTo (((0 : ℕ) : ℚ) / 100) 3 = 0 := by
      rw [pyRoundTo_div100]
      norm_num
    rw [h0, if_pos rfl]

/-- Witness for C10 at the concrete text `"ab!"` (post-removal length 2). -/
theorem calc_word_analysis_shout_ask_witness :
    remainingLen ["ab!"] ≠ 0
    ∧ (calc_shout_ask ["ab!"]
        = Except.ok
            (100 * (shoutRemoved ["ab!"] : ℚ) / (remainingLen ["ab!"] : ℚ),
             100 * (askRemoved ["ab!"] : ℚ) / (remainingLen ["ab!"] : ℚ))
      ∧ calc_shout_ask ["!?"]
        = Except.error "ZeroDivisionError: float division by zero") :=
  ⟨by decide, calc_word_analysis_shout_ask ["ab!"] (by decide)⟩
